import Mathlib

set_option linter.unnecessarySeqFocus false
set_option linter.unusedVariables false

/-!
Shallow embedding of the load tester in src/sync-app.js.

The program issues `totalRequests` HTTP GET requests against a fixed URL,
throttled to `ceil(totalRequests / timeWindowSeconds)` admissions per second,
and records one outcome record per request in a shared results object.

Modelling choices:
- JavaScript numbers used as integers (counters, byte sizes, millisecond
  timestamps) become `Nat`; `timeWindowSeconds`, a positive float divided
  into `totalRequests`, becomes `Rat`; `Math.ceil` becomes `Int.ceil`.
- The HTTP client (axios) is a parameter `http : String -> Nat -> ReqResult`
  giving, for each request index, either a response or a transport failure
  that may carry an attached error response. The `content-length` header is
  modelled as its parsed numeric value when present.
- Wall-clock time is a pair of parameters `start finish : Nat -> Nat`
  giving each request index its `Date.now()` readings at dispatch and at
  settlement; `timeMs` is their difference, as in the source.
- Requests complete (and are appended to `results.responses`) in an
  arbitrary interleaving: the run is a fold over a completion `order` list,
  which for a completed run is a permutation of `List.range totalRequests`.
-/

/-- A JSON value, standing in for the parsed `response.data` that axios
delivers and that `JSON.stringify` re-serializes. -/
inductive Json where
  | null : Json
  | bool (b : Bool) : Json
  | num (n : Int) : Json
  | str (s : String) : Json
  | arr (elems : List Json) : Json
  | obj (fields : List (String × Json)) : Json
deriving Repr

/-- Escaping applied by `JSON.stringify` to quotes and backslashes inside
string values. -/
def escapeString (s : String) : String :=
  s.data.foldl (fun acc c =>
    if c = '"' then acc ++ "\\\""
    else if c = '\\' then acc ++ "\\\\"
    else acc.push c) ""

mutual

/-- Serialization of a JSON value, standing in for `JSON.stringify` (compact
form, no added whitespace). -/
def Json.stringify : Json → String
  | .null => "null"
  | .bool true => "true"
  | .bool false => "false"
  | .num n => toString n
  | .str s => "\"" ++ escapeString s ++ "\""
  | .arr elems => "[" ++ stringifyList elems ++ "]"
  | .obj fields => "\x7b" ++ stringifyFields fields ++ "\x7d"

/-- Comma-separated serialization of the elements of a JSON array. -/
def stringifyList : List Json → String
  | [] => ""
  | [x] => Json.stringify x
  | x :: xs => Json.stringify x ++ "," ++ stringifyList xs

/-- Comma-separated serialization of the key-value pairs of a JSON object. -/
def stringifyFields : List (String × Json) → String
  | [] => ""
  | [(k, v)] => "\"" ++ escapeString k ++ "\":" ++ Json.stringify v
  | (k, v) :: fs => "\"" ++ escapeString k ++ "\":" ++ Json.stringify v ++ "," ++ stringifyFields fs

end

/-- An HTTP response as the engine sees it: a status code, the parsed
`content-length` header when one is present, and the parsed body when one
is present (src/sync-app.js reads `response.status`, `response.headers`
and `response.data`). -/
structure Response where
  status : Nat
  contentLength : Option Nat
  data : Option Json

/-- Result of one `axios.get` call: either a response, or a transport
failure carrying a message and, for HTTP-level errors the client surfaces
as exceptions, an attached `error.response`. -/
inductive ReqResult where
  | success (resp : Response) : ReqResult
  | failure (msg : String) (errResp : Option Response) : ReqResult

/-- The `status` field of a recorded outcome: an HTTP status code, or the
string sentinel the source writes as the literal N/A. -/
inductive StatusVal where
  | code (n : Nat) : StatusVal
  | na : StatusVal
deriving Repr, DecidableEq

/-- One per-request record, mirroring the `responseData` object built in
`loadTest` (src/sync-app.js lines 86 to 112). -/
structure ResponseData where
  requestNumber : Nat
  timeMs : Nat
  status : StatusVal
  success : Bool
  sizeBytes : Nat
  error : Option String
deriving Repr, DecidableEq

/-- The `results` object assembled by `loadTest` (src/sync-app.js lines
58 to 68). -/
structure LoadTestResults where
  totalRequests : Nat
  timeWindowSeconds : Rat
  successfulRequests : Nat
  failedRequests : Nat
  responses : List ResponseData
  totalTimeTakenMs : Nat
  firstQueryStartTime : Option Nat
  lastQueryStartTime : Option Nat
  totalResponseSizeBytes : Nat

/-- `getResponseSize` (src/sync-app.js lines 40 to 50): prefer the
`content-length` header, fall back to the UTF-8 byte length of the
stringified body, else 0. The argument is optional because the source
guards every access with a null check on `response` itself. -/
def getResponseSize (response : Option Response) : Nat :=
  match response with
  | some r =>
    match r.contentLength with
    | some n => n
    | none =>
      match r.data with
      | some d => (Json.stringify d).utf8ByteSize
      | none => 0
  | none => 0

/-- Whether a URL matches the regex used by `validateInputs`
(src/sync-app.js line 22): one of the two scheme prefixes followed by at
least one character (the prefix check runs over the character list). -/
def validUrlShape (url : String) : Bool :=
  ("http://".data.isPrefixOf url.data && url.length > 7) ||
  ("https://".data.isPrefixOf url.data && url.length > 8)

/-- `validateInputs` (src/sync-app.js lines 21 to 31). `totalRequests` is
an `Int` because the parsed user input may be negative; the
`Number.isInteger` and `Number.isFinite` checks of the source hold by
typing in the model. The thrown `Error` becomes `Except.error` carrying
the same message. -/
def validateInputs (url : String) (totalRequests : Int) (timeWindowSeconds : Rat) :
    Except String Unit :=
  if ¬ validUrlShape url then
    .error "Invalid or missing URL. Please provide a valid URL starting with http:// or https://"
  else if totalRequests ≤ 0 then
    .error "Invalid totalRequests. Please provide a positive integer."
  else if timeWindowSeconds ≤ 0 then
    .error "Invalid timeWindowSeconds. Please provide a positive number."
  else
    .ok ()

/-- The rate computed at the top of `loadTest` (src/sync-app.js line 54):
`Math.ceil(totalRequests / timeWindowSeconds)`. -/
def requestsPerSecond (totalRequests : Nat) (timeWindowSeconds : Rat) : Int :=
  Int.ceil ((totalRequests : Rat) / timeWindowSeconds)

/-- The body of one throttled unit of work in `loadTest` (src/sync-app.js
lines 86 to 112): the fully-populated `responseData` record for request
`index`, built from the outcome of `axios.get(url)` and the two
`Date.now()` readings around the call. -/
def processRequest (http : String → Nat → ReqResult) (url : String)
    (start finish : Nat → Nat) (index : Nat) : ResponseData :=
  match http url index with
  | .success response =>
      { requestNumber := index + 1
        timeMs := finish index - start index
        status := .code response.status
        success := true
        sizeBytes := getResponseSize (some response)
        error := none }
  | .failure msg errResp =>
      { requestNumber := index + 1
        timeMs := finish index - start index
        status := match errResp with
          | some r => .code r.status
          | none => .na
        success := false
        sizeBytes := match errResp with
          | some r => getResponseSize (some r)
          | none => 0
        error := some msg }

/-- The shared-state mutation performed when the unit of work for request
`index` settles (src/sync-app.js lines 79 to 84 and 103 to 125): record
first and last query start times for the first and last index, bump the
matching counter, add the outcome size to the running byte total, and push
the record onto `results.responses`. -/
def recordOutcome (totalRequests : Nat) (start : Nat → Nat)
    (st : LoadTestResults) (index : Nat) (rd : ResponseData) : LoadTestResults :=
  { st with
    firstQueryStartTime :=
      if index = 0 then some (start index) else st.firstQueryStartTime
    lastQueryStartTime :=
      if index = totalRequests - 1 then some (start index) else st.lastQueryStartTime
    successfulRequests := st.successfulRequests + (if rd.success then 1 else 0)
    failedRequests := st.failedRequests + (if rd.success then 0 else 1)
    totalResponseSizeBytes := st.totalResponseSizeBytes + rd.sizeBytes
    responses := st.responses ++ [rd] }

/-- One settlement step of the run: process request `index` and fold its
outcome into the shared results. -/
def stepRun (http : String → Nat → ReqResult) (url : String)
    (totalRequests : Nat) (start finish : Nat → Nat)
    (st : LoadTestResults) (index : Nat) : LoadTestResults :=
  recordOutcome totalRequests start st index (processRequest http url start finish index)

/-- The initial `results` object of `loadTest` (src/sync-app.js lines
58 to 68). -/
def initResults (totalRequests : Nat) (timeWindowSeconds : Rat) : LoadTestResults :=
  { totalRequests := totalRequests
    timeWindowSeconds := timeWindowSeconds
    successfulRequests := 0
    failedRequests := 0
    responses := []
    totalTimeTakenMs := 0
    firstQueryStartTime := none
    lastQueryStartTime := none
    totalResponseSizeBytes := 0 }

/-- `loadTest` (src/sync-app.js lines 52 to 136). The function computes
the throttle rate once up front, launches one unit of work per index
0..totalRequests-1, and awaits them all; the units settle in the
interleaving given by `order` (for a completed run, a permutation of
`List.range totalRequests`). `startTime` and `endTime` are the two
`Date.now()` readings around the whole run. The source contains no
validation and no throw of its own. -/
def loadTest (url : String) (totalRequests : Nat) (timeWindowSeconds : Rat)
    (http : String → Nat → ReqResult) (start finish : Nat → Nat)
    (startTime endTime : Nat) (order : List Nat) : LoadTestResults :=
  let _rps : Int := requestsPerSecond totalRequests timeWindowSeconds
  let final := order.foldl (stepRun http url totalRequests start finish)
    (initResults totalRequests timeWindowSeconds)
  { final with totalTimeTakenMs := endTime - startTime }

/-- The `runTest` pipeline up to and including the engine call
(src/sync-app.js lines 148 to 158): parse-validated inputs flow through
`validateInputs` and then into `loadTest`; a validation failure aborts
before any request is issued. `Array.from` with a negative length yields
an empty array, hence `Int.toNat`. -/
def runTestPipeline (url : String) (totalRequests : Int) (timeWindowSeconds : Rat)
    (http : String → Nat → ReqResult) (start finish : Nat → Nat)
    (startTime endTime : Nat) (order : List Nat) : Except String LoadTestResults :=
  match validateInputs url totalRequests timeWindowSeconds with
  | .error e => .error e
  | .ok _ => .ok (loadTest url totalRequests.toNat timeWindowSeconds
      http start finish startTime endTime order)

/-! ### Invariants of the settlement fold -/

theorem foldl_stepRun_responses (http : String → Nat → ReqResult) (url : String)
    (N : Nat) (start finish : Nat → Nat) (l : List Nat) (st : LoadTestResults) :
    (l.foldl (stepRun http url N start finish) st).responses
      = st.responses ++ l.map (processRequest http url start finish) := by
  induction l generalizing st with
  | nil => simp
  | cons a l ih =>
      simp only [List.foldl_cons, List.map_cons, ih, stepRun, recordOutcome]
      simp

theorem foldl_stepRun_counters (http : String → Nat → ReqResult) (url : String)
    (N : Nat) (start finish : Nat → Nat) (l : List Nat) (st : LoadTestResults) :
    (l.foldl (stepRun http url N start finish) st).successfulRequests
        + (l.foldl (stepRun http url N start finish) st).failedRequests
      = st.successfulRequests + st.failedRequests + l.length := by
  induction l generalizing st with
  | nil => simp
  | cons a l ih =>
      simp only [List.foldl_cons, List.length_cons, ih, stepRun, recordOutcome]
      cases (processRequest http url start finish a).success <;> simp <;> omega

theorem foldl_stepRun_failed (http : String → Nat → ReqResult) (url : String)
    (N : Nat) (start finish : Nat → Nat) (l : List Nat) (st : LoadTestResults) :
    (l.foldl (stepRun http url N start finish) st).failedRequests
      = st.failedRequests
        + (l.map (processRequest http url start finish)).countP (fun rd => !rd.success) := by
  induction l generalizing st with
  | nil => simp
  | cons a l ih =>
      simp only [List.foldl_cons, List.map_cons, List.countP_cons, ih, stepRun, recordOutcome]
      cases (processRequest http url start finish a).success <;> simp <;> omega

theorem foldl_stepRun_size (http : String → Nat → ReqResult) (url : String)
    (N : Nat) (start finish : Nat → Nat) (l : List Nat) (st : LoadTestResults) :
    (l.foldl (stepRun http url N start finish) st).totalResponseSizeBytes
      = st.totalResponseSizeBytes
        + ((l.map (processRequest http url start finish)).map (fun rd => rd.sizeBytes)).sum := by
  induction l generalizing st with
  | nil => simp
  | cons a l ih =>
      simp only [List.foldl_cons, List.map_cons, List.sum_cons, ih, stepRun, recordOutcome]
      omega

theorem foldl_stepRun_totalRequests (http : String → Nat → ReqResult) (url : String)
    (N : Nat) (start finish : Nat → Nat) (l : List Nat) (st : LoadTestResults) :
    (l.foldl (stepRun http url N start finish) st).totalRequests = st.totalRequests := by
  induction l generalizing st with
  | nil => rfl
  | cons a l ih => simp only [List.foldl_cons, ih, stepRun, recordOutcome]

theorem processRequest_requestNumber (http : String → Nat → ReqResult) (url : String)
    (start finish : Nat → Nat) (index : Nat) :
    (processRequest http url start finish index).requestNumber = index + 1 := by
  unfold processRequest
  cases http url index <;> rfl

/-! ### The run, expressed over the completion order -/

theorem loadTest_responses (url : String) (N : Nat) (tW : Rat)
    (http : String → Nat → ReqResult) (start finish : Nat → Nat)
    (t0 t1 : Nat) (order : List Nat) :
    (loadTest url N tW http start finish t0 t1 order).responses
      = order.map (processRequest http url start finish) := by
  simp only [loadTest]
  rw [foldl_stepRun_responses]
  simp [initResults]

theorem loadTest_counters (url : String) (N : Nat) (tW : Rat)
    (http : String → Nat → ReqResult) (start finish : Nat → Nat)
    (t0 t1 : Nat) (order : List Nat) :
    (loadTest url N tW http start finish t0 t1 order).successfulRequests
        + (loadTest url N tW http start finish t0 t1 order).failedRequests
      = order.length := by
  simp only [loadTest]
  rw [foldl_stepRun_counters]
  simp [initResults]

theorem loadTest_failed (url : String) (N : Nat) (tW : Rat)
    (http : String → Nat → ReqResult) (start finish : Nat → Nat)
    (t0 t1 : Nat) (order : List Nat) :
    (loadTest url N tW http start finish t0 t1 order).failedRequests
      = ((loadTest url N tW http start finish t0 t1 order).responses).countP
          (fun rd => !rd.success) := by
  rw [loadTest_responses]
  simp only [loadTest]
  rw [foldl_stepRun_failed]
  simp [initResults]

theorem loadTest_size (url : String) (N : Nat) (tW : Rat)
    (http : String → Nat → ReqResult) (start finish : Nat → Nat)
    (t0 t1 : Nat) (order : List Nat) :
    (loadTest url N tW http start finish t0 t1 order).totalResponseSizeBytes
      = (((loadTest url N tW http start finish t0 t1 order).responses).map
          (fun rd => rd.sizeBytes)).sum := by
  rw [loadTest_responses]
  simp only [loadTest]
  rw [foldl_stepRun_size]
  simp [initResults]

theorem loadTest_totalRequests (url : String) (N : Nat) (tW : Rat)
    (http : String → Nat → ReqResult) (start finish : Nat → Nat)
    (t0 t1 : Nat) (order : List Nat) :
    (loadTest url N tW http start finish t0 t1 order).totalRequests = N := by
  simp only [loadTest]
  rw [foldl_stepRun_totalRequests]
  simp [initResults]

/-! ### Claims -/

/-- Claim C1: after `loadTest` completes for valid inputs, with every
per-request HTTP call either succeeding or failing, the result satisfies
`successfulRequests + failedRequests = responses.length = totalRequests`:
each unit of work increments exactly one counter and appends exactly one
outcome record, whatever the completion interleaving. -/
theorem claim_c1 (url : String) (N : Nat) (tW : Rat)
    (http : String → Nat → ReqResult) (start finish : Nat → Nat)
    (t0 t1 : Nat) (order : List Nat)
    (hN : 0 < N) (htW : 0 < tW) (horder : order.Perm (List.range N)) :
    (loadTest url N tW http start finish t0 t1 order).successfulRequests
        + (loadTest url N tW http start finish t0 t1 order).failedRequests
      = (loadTest url N tW http start finish t0 t1 order).responses.length
    ∧ (loadTest url N tW http start finish t0 t1 order).responses.length = N := by
  have hlen : order.length = N := by simpa using horder.length_eq
  rw [loadTest_counters, loadTest_responses]
  simp [hlen]

theorem claim_c1_witness :
    (0 : Nat) < 2 ∧ (0 : Rat) < 1 ∧ ([1, 0] : List Nat).Perm (List.range 2) ∧
    ((loadTest "http://a" 2 1 (fun _ _ => .failure "boom" none)
          (fun _ => 0) (fun _ => 0) 0 0 [1, 0]).successfulRequests
        + (loadTest "http://a" 2 1 (fun _ _ => .failure "boom" none)
          (fun _ => 0) (fun _ => 0) 0 0 [1, 0]).failedRequests
      = (loadTest "http://a" 2 1 (fun _ _ => .failure "boom" none)
          (fun _ => 0) (fun _ => 0) 0 0 [1, 0]).responses.length
    ∧ (loadTest "http://a" 2 1 (fun _ _ => .failure "boom" none)
          (fun _ => 0) (fun _ => 0) 0 0 [1, 0]).responses.length = 2) :=
  ⟨by norm_num, by norm_num, by decide,
    claim_c1 "http://a" 2 1 (fun _ _ => .failure "boom" none)
      (fun _ => 0) (fun _ => 0) 0 0 [1, 0] (by norm_num) (by norm_num) (by decide)⟩

/-- Claim C2: for positive inputs the configured rate is
`ceil(totalRequests / timeWindowSeconds)`, a one-shot static computation:
it is the least integer `r` with `totalRequests ≤ r * timeWindowSeconds`
(captured by the two bounding inequalities below), and in particular
`totalRequests = 10, timeWindowSeconds = 3` gives rate 4. -/
theorem claim_c2 (N : Nat) (tW : Rat) (hN : 0 < N) (htW : 0 < tW) :
    (N : Rat) ≤ (requestsPerSecond N tW : Rat) * tW
    ∧ ((requestsPerSecond N tW : Rat) - 1) * tW < N
    ∧ requestsPerSecond 10 3 = 4 := by
  refine ⟨?_, ?_, ?_⟩
  · have h := Int.le_ceil ((N : Rat) / tW)
    calc (N : Rat) = ((N : Rat) / tW) * tW := by field_simp
    _ ≤ (requestsPerSecond N tW : Rat) * tW := by
        exact mul_le_mul_of_nonneg_right h (le_of_lt htW)
  · have h : (Int.ceil ((N : Rat) / tW) : Rat) - 1 < (N : Rat) / tW := by
      have := Int.ceil_lt_add_one ((N : Rat) / tW)
      linarith
    have hm := mul_lt_mul_of_pos_right h htW
    calc ((requestsPerSecond N tW : Rat) - 1) * tW
        = ((Int.ceil ((N : Rat) / tW) : Rat) - 1) * tW := rfl
    _ < ((N : Rat) / tW) * tW := hm
    _ = (N : Rat) := by field_simp
  · norm_num [requestsPerSecond, Int.ceil_eq_iff]

theorem claim_c2_witness :
    (0 : Nat) < 10 ∧ (0 : Rat) < 3 ∧
    ((10 : Rat) ≤ (requestsPerSecond 10 3 : Rat) * 3
    ∧ ((requestsPerSecond 10 3 : Rat) - 1) * 3 < 10
    ∧ requestsPerSecond 10 3 = 4) :=
  ⟨by norm_num, by norm_num, claim_c2 10 3 (by norm_num) (by norm_num)⟩

/-- Claim C5: after a run, `totalResponseSizeBytes` equals the sum of
`sizeBytes` over all records in `responses`, for every completion
interleaving (how a failed request contributes its `sizeBytes` is settled
in the claim about failure outcomes). -/
theorem claim_c5 (url : String) (N : Nat) (tW : Rat)
    (http : String → Nat → ReqResult) (start finish : Nat → Nat)
    (t0 t1 : Nat) (order : List Nat) :
    (loadTest url N tW http start finish t0 t1 order).totalResponseSizeBytes
      = ((loadTest url N tW http start finish t0 t1 order).responses.map
          (fun rd => rd.sizeBytes)).sum :=
  loadTest_size url N tW http start finish t0 t1 order

/-- Claim C9: `requestNumber` is the 0-based submission index plus 1, so
over a completed run the multiset of recorded request numbers is exactly
`1..totalRequests` with no value reused, whatever order the outcomes were
appended in. -/
theorem claim_c9 (url : String) (N : Nat) (tW : Rat)
    (http : String → Nat → ReqResult) (start finish : Nat → Nat)
    (t0 t1 : Nat) (order : List Nat)
    (horder : order.Perm (List.range N)) :
    ((loadTest url N tW http start finish t0 t1 order).responses.map
        (fun rd => rd.requestNumber)).Perm ((List.range N).map (fun i => i + 1))
    ∧ ((loadTest url N tW http start finish t0 t1 order).responses.map
        (fun rd => rd.requestNumber)).Nodup := by
  have hmap : (loadTest url N tW http start finish t0 t1 order).responses.map
      (fun rd => rd.requestNumber) = order.map (fun i => i + 1) := by
    rw [loadTest_responses, List.map_map]
    simp [Function.comp, processRequest_requestNumber]
  have hperm : (order.map (fun i => i + 1)).Perm ((List.range N).map (fun i => i + 1)) :=
    horder.map _
  refine ⟨hmap ▸ hperm, ?_⟩
  rw [hmap]
  exact (hperm.nodup_iff).mpr
    ((List.nodup_range N).map (fun a b h => by omega))

/-- Claim C3 counterexample: `loadTest` itself performs no validation.
Called directly with `totalRequests = 0` (no external validator having
run), it does not raise a `ConfigurationError`: it computes the rate and
returns a normal, fully-formed result object with zero outcomes. -/
theorem claim_c3_counterexample :
    loadTest "http://example.com" 0 1 (fun _ _ => .failure "connect ECONNREFUSED" none)
        (fun _ => 0) (fun _ => 0) 0 0 []
      = { totalRequests := 0, timeWindowSeconds := 1, successfulRequests := 0,
          failedRequests := 0, responses := [], totalTimeTakenMs := 0,
          firstQueryStartTime := none, lastQueryStartTime := none,
          totalResponseSizeBytes := 0 } := by
  simp [loadTest, initResults]

/-- Claim C3 (amended): rejection of `totalRequests ≤ 0` or
`timeWindowSeconds ≤ 0` happens in `validateInputs`, which `runTest`
invokes before calling `loadTest`; the combined pipeline fails with the
corresponding validation error before any request is issued and produces
no result, but the engine function `loadTest` itself performs no such
validation. -/
theorem claim_c3_amended (url : String) (tR : Int) (tW : Rat)
    (http : String → Nat → ReqResult) (start finish : Nat → Nat)
    (t0 t1 : Nat) (order : List Nat)
    (hurl : validUrlShape url = true) (h : tR ≤ 0 ∨ tW ≤ 0) :
    validateInputs url tR tW
      = .error (if tR ≤ 0 then "Invalid totalRequests. Please provide a positive integer."
          else "Invalid timeWindowSeconds. Please provide a positive number.")
    ∧ runTestPipeline url tR tW http start finish t0 t1 order
      = .error (if tR ≤ 0 then "Invalid totalRequests. Please provide a positive integer."
          else "Invalid timeWindowSeconds. Please provide a positive number.") := by
  have hv : validateInputs url tR tW
      = .error (if tR ≤ 0 then "Invalid totalRequests. Please provide a positive integer."
          else "Invalid timeWindowSeconds. Please provide a positive number.") := by
    rcases h with h | h
    · simp [validateInputs, hurl, h]
    · by_cases htR : tR ≤ 0
      · simp [validateInputs, hurl, htR]
      · simp [validateInputs, hurl, htR, h]
  exact ⟨hv, by simp [runTestPipeline, hv]⟩

theorem claim_c3_amended_witness :
    validUrlShape "http://example.com" = true ∧ ((0 : Int) ≤ 0 ∨ (1 : Rat) ≤ 0) ∧
    (validateInputs "http://example.com" 0 1
      = .error (if (0 : Int) ≤ 0 then "Invalid totalRequests. Please provide a positive integer."
          else "Invalid timeWindowSeconds. Please provide a positive number.")
    ∧ runTestPipeline "http://example.com" 0 1 (fun _ _ => .failure "connect ECONNREFUSED" none)
        (fun _ => 0) (fun _ => 0) 0 0 []
      = .error (if (0 : Int) ≤ 0 then "Invalid totalRequests. Please provide a positive integer."
          else "Invalid timeWindowSeconds. Please provide a positive number.")) :=
  ⟨by decide, Or.inl (by norm_num),
    claim_c3_amended "http://example.com" 0 1 (fun _ _ => .failure "connect ECONNREFUSED" none)
      (fun _ => 0) (fun _ => 0) 0 0 [] (by decide) (Or.inl (by norm_num))⟩

/-- Modelled from the spec: the rate limiter (the npm async-throttle
module configured at src/sync-app.js line 55) is external to this
repository, so its admission schedule is modelled from the admission
policy stated in the spec: submitted operations are admitted FIFO,
bursting up to the rate `R` at the start of each one-second window, so
operation `i` begins at millisecond `(i / R) * 1000`. -/
def admissionTime (R i : Nat) : Nat := (i / R) * 1000

/-- Number of the first `N` admissions that begin inside the rolling
one-second window `[t, t + 1000)` of milliseconds. -/
def admissionsInWindow (R N t : Nat) : Nat :=
  ((Finset.range N).filter
    (fun i => t ≤ admissionTime R i ∧ admissionTime R i < t + 1000)).card

/-- Claim C4: with a configured positive rate `R`, admission times are
FIFO (monotone in submission index), and no more than `R` admissions
begin within any rolling one-second window, while bursting up to `R` at a
window start is permitted (the schedule admits exactly in such bursts). -/
theorem claim_c4 (R i j N t : Nat) (hR : 0 < R) (hij : i ≤ j) :
    admissionTime R i ≤ admissionTime R j ∧ admissionsInWindow R N t ≤ R := by
  constructor
  · exact Nat.mul_le_mul_right _ (Nat.div_le_div_right hij)
  · unfold admissionsInWindow
    by_cases hne : ((Finset.range N).filter
        (fun i => t ≤ admissionTime R i ∧ admissionTime R i < t + 1000)).Nonempty
    · obtain ⟨m, hm⟩ := hne
      have hsub : ((Finset.range N).filter
          (fun i => t ≤ admissionTime R i ∧ admissionTime R i < t + 1000))
          ⊆ Finset.Ico (m / R * R) (m / R * R + R) := by
        intro x hx
        simp only [Finset.mem_filter, Finset.mem_range, admissionTime] at hx hm
        obtain ⟨-, hx1, hx2⟩ := hx
        obtain ⟨-, hm1, hm2⟩ := hm
        have hdiv : x / R = m / R := by
          generalize x / R = a at hx1 hx2
          generalize m / R = b at hm1 hm2
          omega
        have hlb : m / R * R ≤ x := by
          rw [← hdiv]; exact Nat.div_mul_le_self x R
        have hub : x < m / R * R + R := by
          have hlt : x / R < m / R + 1 := by omega
          have := (Nat.div_lt_iff_lt_mul hR).mp hlt
          calc x < (m / R + 1) * R := this
          _ = m / R * R + R := by ring
        exact Finset.mem_Ico.mpr ⟨hlb, hub⟩
      calc ((Finset.range N).filter
            (fun i => t ≤ admissionTime R i ∧ admissionTime R i < t + 1000)).card
          ≤ (Finset.Ico (m / R * R) (m / R * R + R)).card := Finset.card_le_card hsub
      _ = R := by rw [Nat.card_Ico]; omega
    · rw [Finset.not_nonempty_iff_eq_empty.mp hne]
      simp

theorem claim_c4_witness :
    (0 : Nat) < 2 ∧ (1 : Nat) ≤ 3 ∧
    (admissionTime 2 1 ≤ admissionTime 2 3 ∧ admissionsInWindow 2 5 0 ≤ 2) :=
  ⟨by norm_num, by norm_num, claim_c4 2 1 3 5 0 (by norm_num) (by norm_num)⟩

/-- Claim C6: a per-request HTTP call that fails at the transport level is
recorded with `success = false`, the (non-empty) failure message in
`error`, `timeMs` computed exactly as for successes (`finish` reading
minus `start` reading for that request), `status` taken from the attached
error response when one exists and the N/A sentinel otherwise, and
`sizeBytes` taken from the attached error response when one exists and 0
otherwise; the failing request still lands in the results of the run,
which records one outcome per submitted unit of work regardless of the
failure. -/
theorem claim_c6 (url : String) (N : Nat) (tW : Rat)
    (http : String → Nat → ReqResult) (start finish : Nat → Nat)
    (t0 t1 : Nat) (order : List Nat) (i : Nat)
    (msg : String) (errResp : Option Response)
    (hfail : http url i = .failure msg errResp) (hmsg : msg ≠ "") (hmem : i ∈ order) :
    processRequest http url start finish i
        ∈ (loadTest url N tW http start finish t0 t1 order).responses
    ∧ (processRequest http url start finish i).success = false
    ∧ (processRequest http url start finish i).error = some msg
    ∧ (processRequest http url start finish i).error ≠ some ""
    ∧ (processRequest http url start finish i).timeMs = finish i - start i
    ∧ (processRequest http url start finish i).status
        = errResp.elim StatusVal.na (fun r => StatusVal.code r.status)
    ∧ (processRequest http url start finish i).sizeBytes
        = errResp.elim 0 (fun r => getResponseSize (some r))
    ∧ (loadTest url N tW http start finish t0 t1 order).responses.length
        = order.length := by
  refine ⟨?_, ?_, ?_, ?_, ?_, ?_, ?_, ?_⟩
  · rw [loadTest_responses]
    exact List.mem_map_of_mem _ hmem
  · simp [processRequest, hfail]
  · simp [processRequest, hfail]
  · simp [processRequest, hfail, hmsg]
  · simp [processRequest, hfail]
  · cases errResp <;> simp [processRequest, hfail]
  · cases errResp <;> simp [processRequest, hfail]
  · rw [loadTest_responses, List.length_map]

theorem claim_c6_witness :
    ((fun (_ : String) (_ : Nat) => ReqResult.failure "timeout of 10000ms exceeded" none)
        "http://a" 0 = .failure "timeout of 10000ms exceeded" none)
    ∧ ("timeout of 10000ms exceeded" ≠ "")
    ∧ ((0 : Nat) ∈ [0])
    ∧ (processRequest (fun _ _ => .failure "timeout of 10000ms exceeded" none)
          "http://a" (fun _ => 5) (fun _ => 17) 0
        ∈ (loadTest "http://a" 1 1 (fun _ _ => .failure "timeout of 10000ms exceeded" none)
          (fun _ => 5) (fun _ => 17) 0 0 [0]).responses
    ∧ (processRequest (fun _ _ => .failure "timeout of 10000ms exceeded" none)
          "http://a" (fun _ => 5) (fun _ => 17) 0).success = false
    ∧ (processRequest (fun _ _ => .failure "timeout of 10000ms exceeded" none)
          "http://a" (fun _ => 5) (fun _ => 17) 0).error
        = some "timeout of 10000ms exceeded"
    ∧ (processRequest (fun _ _ => .failure "timeout of 10000ms exceeded" none)
          "http://a" (fun _ => 5) (fun _ => 17) 0).error ≠ some ""
    ∧ (processRequest (fun _ _ => .failure "timeout of 10000ms exceeded" none)
          "http://a" (fun _ => 5) (fun _ => 17) 0).timeMs
        = (fun (_ : Nat) => 17) 0 - (fun (_ : Nat) => 5) 0
    ∧ (processRequest (fun _ _ => .failure "timeout of 10000ms exceeded" none)
          "http://a" (fun _ => 5) (fun _ => 17) 0).status
        = (none : Option Response).elim StatusVal.na (fun r => StatusVal.code r.status)
    ∧ (processRequest (fun _ _ => .failure "timeout of 10000ms exceeded" none)
          "http://a" (fun _ => 5) (fun _ => 17) 0).sizeBytes
        = (none : Option Response).elim 0 (fun r => getResponseSize (some r))
    ∧ (loadTest "http://a" 1 1 (fun _ _ => .failure "timeout of 10000ms exceeded" none)
          (fun _ => 5) (fun _ => 17) 0 0 [0]).responses.length = [0].length) :=
  ⟨rfl, by simp, by simp,
    claim_c6 "http://a" 1 1 (fun _ _ => .failure "timeout of 10000ms exceeded" none)
      (fun _ => 5) (fun _ => 17) 0 0 [0] 0 "timeout of 10000ms exceeded" none
      rfl (by simp) (by simp)⟩

/-- The response-size policy in the words of the spec: ordered preference
for the content-length header (body ignored), else the UTF-8 byte length
of the JSON-serialized body, else 0. Written to be compared with
`getResponseSize`, which is translated from the source. -/
def specResponseSize (r : Response) : Nat :=
  match r.contentLength with
  | some n => n
  | none =>
    match r.data with
    | some d => (Json.stringify d).utf8ByteSize
    | none => 0

/-- Claim C7: the size computed for every HTTP response follows the
ordered preference stated in the spec (`getResponseSize` refines
`specResponseSize`); the three closed sample points pin down the three
branches — a present content-length wins even when a body exists, a body
alone contributes the UTF-8 byte length of its JSON serialization (the
two-character string body serializes to four bytes including its quotes),
and an empty response contributes 0. -/
theorem claim_c7 (r : Response) :
    getResponseSize (some r) = specResponseSize r
    ∧ getResponseSize (some ⟨200, some 42, some (Json.str "xy")⟩) = 42
    ∧ getResponseSize (some ⟨200, none, some (Json.str "xy")⟩) = 4
    ∧ getResponseSize (some ⟨204, none, none⟩) = 0 := by
  refine ⟨?_, rfl, ?_, rfl⟩
  · obtain ⟨st, cl, d⟩ := r
    cases cl <;> cases d <;> rfl
  · show (Json.stringify (Json.str "xy")).utf8ByteSize = 4
    rw [Json.stringify]
    rfl

/-! ### Summary metrics computed by runTest (src/sync-app.js lines 174 to 180) -/

/-- The two-decimal rounding performed by `toFixed(2)` on the summary
numbers. -/
def toFixed2 (q : Rat) : Rat := ((round (q * 100) : Int) : Rat) / 100

/-- `errorRate` (src/sync-app.js line 174): failed over total requests as
a percentage, two decimals. -/
def errorRate (r : LoadTestResults) : Rat :=
  toFixed2 ((r.failedRequests : Rat) / (r.totalRequests : Rat) * 100)

/-- `averageResponseTimeMs` (src/sync-app.js lines 175 to 177): mean of
`timeMs` over the recorded responses, two decimals, 0 for an empty list. -/
def averageResponseTimeMs (r : LoadTestResults) : Rat :=
  if 0 < r.responses.length then
    toFixed2 ((r.responses.map (fun rd => (rd.timeMs : Rat))).sum / (r.responses.length : Rat))
  else 0

/-- `totalResponseSizeMB` (src/sync-app.js line 178): total bytes over
1024 * 1024, two decimals. -/
def totalResponseSizeMB (r : LoadTestResults) : Rat :=
  toFixed2 ((r.totalResponseSizeBytes : Rat) / (1024 * 1024))

/-- `mbps` (src/sync-app.js lines 179 to 180): the already-rounded MB
figure divided by the elapsed seconds, two decimals, 0 when no time
elapsed. -/
def mbps (r : LoadTestResults) : Rat :=
  if 0 < (r.totalTimeTakenMs : Rat) / 1000 then
    toFixed2 (totalResponseSizeMB r / ((r.totalTimeTakenMs : Rat) / 1000))
  else 0

/-- Error rate recomputed from the outcomes list alone: failures counted
from the records, total taken as the length of the list. -/
def recomputedErrorRate (outcomes : List ResponseData) : Rat :=
  toFixed2 (((outcomes.countP (fun rd => !rd.success)) : Rat) / (outcomes.length : Rat) * 100)

/-- Average response time recomputed from the outcomes list alone. -/
def recomputedAverageMs (outcomes : List ResponseData) : Rat :=
  if 0 < outcomes.length then
    toFixed2 ((outcomes.map (fun rd => (rd.timeMs : Rat))).sum / (outcomes.length : Rat))
  else 0

/-- Throughput recomputed from the outcomes list: total MB first rounded
to two decimals from the summed `sizeBytes`, then divided by the elapsed
seconds and rounded again, as the report does. -/
def recomputedMbps (outcomes : List ResponseData) (totalTimeTakenMs : Nat) : Rat :=
  if 0 < (totalTimeTakenMs : Rat) / 1000 then
    toFixed2 (toFixed2 (((outcomes.map (fun rd => rd.sizeBytes)).sum : Rat) / (1024 * 1024))
      / ((totalTimeTakenMs : Rat) / 1000))
  else 0

/-- Claim C8: recomputing the summary numbers from the returned outcomes
list reproduces the reported summary exactly — error rate, average
response time, and throughput (whose MB numerator is the byte total over
1024 * 1024 already rounded to two decimals) agree with the values the
report derives from the result object's counters and totals. -/
theorem claim_c8 (url : String) (N : Nat) (tW : Rat)
    (http : String → Nat → ReqResult) (start finish : Nat → Nat)
    (t0 t1 : Nat) (order : List Nat)
    (horder : order.Perm (List.range N)) :
    errorRate (loadTest url N tW http start finish t0 t1 order)
      = recomputedErrorRate (loadTest url N tW http start finish t0 t1 order).responses
    ∧ averageResponseTimeMs (loadTest url N tW http start finish t0 t1 order)
      = recomputedAverageMs (loadTest url N tW http start finish t0 t1 order).responses
    ∧ mbps (loadTest url N tW http start finish t0 t1 order)
      = recomputedMbps (loadTest url N tW http start finish t0 t1 order).responses
          (loadTest url N tW http start finish t0 t1 order).totalTimeTakenMs := by
  have hlen : (loadTest url N tW http start finish t0 t1 order).responses.length = N := by
    rw [loadTest_responses, List.length_map]
    simpa using horder.length_eq
  refine ⟨?_, ?_, ?_⟩
  · unfold errorRate recomputedErrorRate
    rw [loadTest_failed, hlen, loadTest_totalRequests]
  · unfold averageResponseTimeMs recomputedAverageMs
    rfl
  · unfold mbps recomputedMbps totalResponseSizeMB
    rw [loadTest_size, Nat.cast_list_sum, List.map_map]
    rfl

theorem claim_c8_witness :
    ([0] : List Nat).Perm (List.range 1) ∧
    (errorRate (loadTest "http://a" 1 1 (fun _ _ => .success ⟨200, some 100, none⟩)
          (fun _ => 0) (fun _ => 10) 0 10 [0])
      = recomputedErrorRate (loadTest "http://a" 1 1 (fun _ _ => .success ⟨200, some 100, none⟩)
          (fun _ => 0) (fun _ => 10) 0 10 [0]).responses
    ∧ averageResponseTimeMs (loadTest "http://a" 1 1 (fun _ _ => .success ⟨200, some 100, none⟩)
          (fun _ => 0) (fun _ => 10) 0 10 [0])
      = recomputedAverageMs (loadTest "http://a" 1 1 (fun _ _ => .success ⟨200, some 100, none⟩)
          (fun _ => 0) (fun _ => 10) 0 10 [0]).responses
    ∧ mbps (loadTest "http://a" 1 1 (fun _ _ => .success ⟨200, some 100, none⟩)
          (fun _ => 0) (fun _ => 10) 0 10 [0])
      = recomputedMbps (loadTest "http://a" 1 1 (fun _ _ => .success ⟨200, some 100, none⟩)
          (fun _ => 0) (fun _ => 10) 0 10 [0]).responses
          (loadTest "http://a" 1 1 (fun _ _ => .success ⟨200, some 100, none⟩)
          (fun _ => 0) (fun _ => 10) 0 10 [0]).totalTimeTakenMs) :=
  ⟨by decide,
    claim_c8 "http://a" 1 1 (fun _ _ => .success ⟨200, some 100, none⟩)
      (fun _ => 0) (fun _ => 10) 0 10 [0] (by decide)⟩

/-- Claim C10: with `totalRequests = 1` the single unit of work at index 0
is both the first-indexed and the last-indexed request, so the returned
result records `firstQueryStartTime` and `lastQueryStartTime` both set to
that request's start reading. -/
theorem claim_c10 (url : String) (tW : Rat)
    (http : String → Nat → ReqResult) (start finish : Nat → Nat)
    (t0 t1 : Nat) (order : List Nat)
    (horder : order.Perm (List.range 1)) :
    (loadTest url 1 tW http start finish t0 t1 order).firstQueryStartTime = some (start 0)
    ∧ (loadTest url 1 tW http start finish t0 t1 order).lastQueryStartTime = some (start 0) := by
  have h0 : order = [0] := by
    have h := List.perm_singleton.mp (by simpa [List.range_succ] using horder)
    simpa using h
  subst h0
  constructor <;> simp [loadTest, initResults, stepRun, recordOutcome]

theorem claim_c10_witness :
    ([0] : List Nat).Perm (List.range 1) ∧
    ((loadTest "http://a" 1 1 (fun _ _ => .success ⟨200, some 100, none⟩)
        (fun _ => 7) (fun _ => 9) 0 10 [0]).firstQueryStartTime = some ((fun (_ : Nat) => 7) 0)
    ∧ (loadTest "http://a" 1 1 (fun _ _ => .success ⟨200, some 100, none⟩)
        (fun _ => 7) (fun _ => 9) 0 10 [0]).lastQueryStartTime = some ((fun (_ : Nat) => 7) 0)) :=
  ⟨by decide,
    claim_c10 "http://a" 1 (fun _ _ => .success ⟨200, some 100, none⟩)
      (fun _ => 7) (fun _ => 9) 0 10 [0] (by decide)⟩

theorem claim_c9_witness :
    ([2, 0, 1] : List Nat).Perm (List.range 3) ∧
    (((loadTest "http://a" 3 1 (fun _ _ => .failure "boom" none)
        (fun _ => 0) (fun _ => 0) 0 0 [2, 0, 1]).responses.map
        (fun rd => rd.requestNumber)).Perm ((List.range 3).map (fun i => i + 1))
    ∧ ((loadTest "http://a" 3 1 (fun _ _ => .failure "boom" none)
        (fun _ => 0) (fun _ => 0) 0 0 [2, 0, 1]).responses.map
        (fun rd => rd.requestNumber)).Nodup) :=
  ⟨by decide,
    claim_c9 "http://a" 3 1 (fun _ _ => .failure "boom" none)
      (fun _ => 0) (fun _ => 0) 0 0 [2, 0, 1] (by decide)⟩
